import Mathlib

/-
Shallow embedding of the Credential & Session Authority of the CowSaltPro
application (src/ui/utils/auth.py): the User record, the AuthManager state
(current user, per-user JSON files, QSettings session cache) and its
operations (_hash_password, _verify_password, login, logout, create_user,
delete_user, reset_password, update_user, update_user_permissions,
has_permission).

Modelling conventions:
- The users directory (one JSON file per user, named by user_id) is a
  List UserRec; writing a file replaces the first record with that user_id
  or appends a new one; deleting removes it.
- hashlib.pbkdf2_hmac is an external library primitive; both _hash_password
  and _verify_password call it with the identical fixed parameters
  (sha256, 100000 iterations, dklen 128), so the model abstracts the
  whole call as one deterministic function `Kdf` shared by both sides.
- Python byte strings are List Nat (each entry < 256 where it matters);
  bytes.hex / bytes.fromhex are modelled as bytesToHex / hexToBytes over
  List Char.
- Python exceptions raised inside _verify_password (KeyError on a missing
  dict key, ValueError from bytes.fromhex) are modelled with Except PyError.
- datetime.now(), uuid4 ids, tokens and fresh salts are nondeterministic
  in the source; the model passes them as explicit arguments.
-/

set_option autoImplicit false

namespace CowSalt

/- Role constants from ui/utils/constants.py (class UserRole). -/
namespace UserRole

def ADMIN : String := "admin"

def MANAGER : String := "manager"

def CASHIER : String := "cashier"

def CLERK : String := "clerk"

def VIEWER : String := "viewer"

end UserRole

/-- Exceptions that _verify_password can raise: KeyError (missing dict key,
carrying the key name) and ValueError (bytes.fromhex on a non-hex string). -/
inductive PyError where
  | keyError (k : String)
  | valueError
  deriving DecidableEq

/-- The text str(e) contributes to the "Login error: {e}" message in login. -/
def pyErrorMsg : PyError → String
  | .keyError k => "'" ++ k ++ "'"
  | .valueError => "non-hexadecimal number found in fromhex() arg"

/-- Lowercase hex digit for a value below 16, as bytes.hex produces. -/
def hexDigitChar (n : Nat) : Char :=
  if n < 10 then Char.ofNat (48 + n) else Char.ofNat (87 + n)

/-- bytes.hex(): two lowercase hex digits per byte. -/
def bytesToHex : List Nat → List Char
  | [] => []
  | b :: bs => hexDigitChar (b / 16) :: hexDigitChar (b % 16) :: bytesToHex bs

/-- Value of one hex digit (bytes.fromhex accepts both cases); none on a
non-hex character. -/
def hexDigitVal (c : Char) : Option Nat :=
  if 48 ≤ c.toNat ∧ c.toNat ≤ 57 then some (c.toNat - 48)
  else if 97 ≤ c.toNat ∧ c.toNat ≤ 102 then some (c.toNat - 87)
  else if 65 ≤ c.toNat ∧ c.toNat ≤ 70 then some (c.toNat - 55)
  else none

/-- bytes.fromhex(): pairs of hex digits to bytes; none (a ValueError in
Python) on an odd length or a non-hex character. -/
def hexToBytes : List Char → Option (List Nat)
  | [] => some []
  | [_] => none
  | c1 :: c2 :: rest =>
    match hexDigitVal c1, hexDigitVal c2, hexToBytes rest with
    | some h, some l, some bs => some ((16 * h + l) :: bs)
    | _, _, _ => none

/-- The stored password_hash dict: a 'salt' and a 'key' entry, each a hex
string; an Option field models the key being absent from the dict. -/
structure StoredHash where
  salt : Option (List Char)
  key : Option (List Char)
  deriving DecidableEq

/-- Python truthiness of the password_hash dict in `if stored_hash and ...`:
a dict is truthy iff it is nonempty. -/
def storedHashTruthy (sh : StoredHash) : Bool :=
  sh.salt.isSome || sh.key.isSome

/-- The key-derivation primitive: abstracts the external library call
hashlib.pbkdf2_hmac(sha256, password, salt, 100000, dklen 128), which both
_hash_password and _verify_password invoke with these identical parameters. -/
abbrev Kdf := String → List Nat → List Nat

/-- AuthManager._hash_password: derive a key from the password and the salt
and store both as hex strings. The random salt os.urandom(32) is passed in
explicitly. -/
def hash_password (kdf : Kdf) (password : String) (salt : List Nat) : StoredHash :=
  { salt := some (bytesToHex salt), key := some (bytesToHex (kdf password salt)) }

/-- AuthManager._verify_password: read the salt hex (KeyError if absent),
decode it (ValueError if not hex), re-derive the key with the same
parameters and compare its hex to the stored key hex (KeyError if absent). -/
def verify_password (kdf : Kdf) (stored : StoredHash) (password : String) :
    Except PyError Bool :=
  match stored.salt with
  | none => .error (.keyError "salt")
  | some saltHex =>
    match hexToBytes saltHex with
    | none => .error .valueError
    | some saltBytes =>
      let key := kdf password saltBytes
      match stored.key with
      | none => .error (.keyError "key")
      | some keyHex => .ok (bytesToHex key == keyHex)

theorem hexDigitVal_hexDigitChar : ∀ n : Nat, n < 16 →
    hexDigitVal (hexDigitChar n) = some n := by
  decide

theorem hexToBytes_bytesToHex (bs : List Nat) (h : ∀ b ∈ bs, b < 256) :
    hexToBytes (bytesToHex bs) = some bs := by
  induction bs with
  | nil => rfl
  | cons b bs ih =>
    have hb : b < 256 := h b (List.mem_cons_self b bs)
    have hhi : b / 16 < 16 := Nat.div_lt_of_lt_mul hb
    have hlo : b % 16 < 16 := Nat.mod_lt b (by norm_num)
    have h1 := hexDigitVal_hexDigitChar (b / 16) hhi
    have h2 := hexDigitVal_hexDigitChar (b % 16) hlo
    have ih2 := ih (fun x hx => h x (List.mem_cons_of_mem b hx))
    simp only [bytesToHex, hexToBytes, h1, h2, ih2]
    have hbb : 16 * (b / 16) + b % 16 = b := by omega
    rw [hbb]

/-- One user JSON file (data/users/{user_id}.json). Fields written by
User.to_dict plus the extra keys the AuthManager operations add; an Option
field models the key being absent from (or null in) the file. -/
structure UserRec where
  user_id : String
  username : String
  full_name : String
  role : String
  email : Option String
  created_at : Option String
  last_login : Option String
  password_hash : Option StoredHash
  session_token : Option String
  permissions : Option (List String)
  require_password_change : Option Bool
  password_changed_at : Option String
  deriving DecidableEq

/-- The in-memory User object (class User): exactly the to_dict fields;
it carries no password hash, session token or permissions. -/
structure UserObj where
  user_id : String
  username : String
  full_name : String
  role : String
  email : Option String
  created_at : Option String
  last_login : Option String
  deriving DecidableEq

/-- User.from_dict on a user file. -/
def UserObj.from_dict (d : UserRec) : UserObj :=
  { user_id := d.user_id, username := d.username, full_name := d.full_name,
    role := d.role, email := d.email, created_at := d.created_at,
    last_login := d.last_login }

/-- The AuthManager state: the current authenticated user, the users
directory (one record per file, keyed by user_id), and the QSettings
session cache (auth/user_id, auth/token). -/
structure AuthState where
  current_user : Option UserObj
  store : List UserRec
  settings_user_id : Option String
  settings_token : Option String
  deriving DecidableEq

/-- Writing data/users/{r.user_id}.json: overwrite the file if it exists,
create it otherwise. -/
def write_user_file (r : UserRec) : List UserRec → List UserRec
  | [] => [r]
  | x :: rest =>
    if x.user_id == r.user_id then r :: rest else x :: write_user_file r rest

/-- In-place update of the file named uid (the first and, files being unique
per name, only record with that user_id). -/
def update_user_file (uid : String) (f : UserRec → UserRec) :
    List UserRec → List UserRec
  | [] => []
  | x :: rest =>
    if x.user_id == uid then f x :: rest else x :: update_user_file uid f rest

/-- os.remove on the file named uid. -/
def delete_user_file (uid : String) : List UserRec → List UserRec
  | [] => []
  | x :: rest => if x.user_id == uid then rest else x :: delete_user_file uid rest

/-- user_file.exists() for data/users/{uid}.json. -/
def user_file_exists (uid : String) (store : List UserRec) : Bool :=
  store.any (fun r => r.user_id == uid)

/-- The duplicate-username scan of create_user over all user files. -/
def username_exists (username : String) (store : List UserRec) : Bool :=
  store.any (fun r => r.username == username)

/-- AuthManager.is_authenticated. -/
def is_authenticated (s : AuthState) : Bool :=
  s.current_user.isSome

/-- AuthManager.has_permission: admin short-circuit, then the fixed
role-based tables; note it reads only current_user.role, never the stored
permissions list. -/
def has_permission (s : AuthState) (permission : String) : Bool :=
  match s.current_user with
  | none => false
  | some u =>
    if u.role == UserRole.ADMIN then true
    else if u.role == UserRole.MANAGER then
      if (["manage_users", "delete_users"]).contains permission then false
      else true
    else if u.role == UserRole.CASHIER then
      if (["create_sale", "view_sales", "create_payment"]).contains permission then true
      else false
    else if u.role == UserRole.CLERK then
      if (["view_inventory", "update_inventory"]).contains permission then true
      else false
    else if u.role == UserRole.VIEWER then
      if permission.startsWith "view_" then true
      else false
    else false

/-- Outcome of the file scan inside login. -/
inductive LoginOutcome where
  | success (recs : List UserRec) (u : UserObj)
  | failure (msg : String)
  deriving DecidableEq

/-- The for-loop of AuthManager.login over the user files: the first file
whose username matches decides the outcome (verify the password, write the
token and last_login into that file on success); a scan that finds no match
falls through to "User not found"; an exception raised by _verify_password
is caught by login's try/except as "Login error: {e}". -/
def login_loop (kdf : Kdf) (username password newToken now : String) :
    List UserRec → LoginOutcome
  | [] => .failure "User not found"
  | r :: rest =>
    if r.username == username then
      match r.password_hash with
      | none => .failure "Invalid password"
      | some sh =>
        if storedHashTruthy sh then
          match verify_password kdf sh password with
          | .error e => .failure ("Login error: " ++ pyErrorMsg e)
          | .ok true =>
            .success ({ r with last_login := some now,
                               session_token := some newToken } :: rest)
                     (UserObj.from_dict { r with last_login := some now,
                                                 session_token := some newToken })
          | .ok false => .failure "Invalid password"
        else .failure "Invalid password"
    else
      match login_loop kdf username password newToken now rest with
      | .success recs u => .success (r :: recs) u
      | .failure msg => .failure msg

/-- AuthManager.login: on success the matched file holds the new token and
last_login, the QSettings cache holds the new user_id/token pair and
current_user is the freshly read User object; on any failure nothing is
written. -/
def login (kdf : Kdf) (s : AuthState) (username password newToken now : String) :
    AuthState × Bool × String :=
  match login_loop kdf username password newToken now s.store with
  | .failure msg => (s, false, msg)
  | .success recs u =>
    ({ current_user := some u, store := recs,
       settings_user_id := some u.user_id, settings_token := some newToken },
     true, "Login successful")

/-- The session_token removal logout performs on the current user's file
(skipped silently when the file does not exist). -/
def remove_session_token (uid : String) : List UserRec → List UserRec
  | [] => []
  | x :: rest =>
    if x.user_id == uid then { x with session_token := none } :: rest
    else x :: remove_session_token uid rest

/-- AuthManager.logout: with a current user, clear the QSettings cache,
delete session_token from that user's file and clear current_user; with no
current user, return the failure pair without touching anything. -/
def logout (s : AuthState) : AuthState × Bool × String :=
  match s.current_user with
  | none => (s, false, "No user logged in")
  | some cu =>
    ({ current_user := none,
       store := remove_session_token cu.user_id s.store,
       settings_user_id := none, settings_token := none },
     true, "Logout successful")

/-- The token comparison of _load_session: `stored_token and stored_token ==
token` — a session resumes iff the file's stored token is present, nonempty
and equal to the presented one. -/
def token_matches (stored : Option String) (presented : String) : Bool :=
  match stored with
  | none => false
  | some t => t != "" && t == presented

/-- The file content _save_user writes for a freshly constructed User plus
its password hash (User.__init__ sets created_at to now and last_login to
None; no session token, permissions or password-change keys exist yet). -/
def new_user_rec (kdf : Kdf) (username password full_name role : String)
    (email : Option String) (newId now : String) (salt : List Nat) : UserRec :=
  { user_id := newId, username := username, full_name := full_name,
    role := role, email := email, created_at := some now,
    last_login := none,
    password_hash := some (hash_password kdf password salt),
    session_token := none, permissions := none,
    require_password_change := none, password_changed_at := none }

/-- AuthManager.create_user: authentication and admin guards, the
duplicate-username scan, then _save_user of the new User plus password hash.
The fresh uuid4 user_id, datetime.now() and os.urandom salt are passed in
explicitly. -/
def create_user (kdf : Kdf) (s : AuthState)
    (username password full_name role : String) (email : Option String)
    (newId now : String) (salt : List Nat) : AuthState × Bool × String :=
  match s.current_user with
  | none => (s, false, "Not authenticated")
  | some cu =>
    if cu.role != UserRole.ADMIN then (s, false, "Not authorized to create users")
    else if username_exists username s.store then
      (s, false, "Username already exists")
    else
      let nr := new_user_rec kdf username password full_name role email newId now salt
      ({ s with store := write_user_file nr s.store },
       true, "User created successfully")

/-- AuthManager.delete_user: authentication, admin guard, then the
self-delete guard, then remove the target file if it exists. -/
def delete_user (s : AuthState) (uid : String) : AuthState × Bool × String :=
  match s.current_user with
  | none => (s, false, "Not authenticated")
  | some cu =>
    if cu.role != UserRole.ADMIN then (s, false, "Not authorized to delete users")
    else if cu.user_id == uid then (s, false, "Cannot delete your own account")
    else if user_file_exists uid s.store then
      ({ s with store := delete_user_file uid s.store },
       true, "User deleted successfully")
    else (s, false, "User not found")

/-- AuthManager.reset_password: allowed for an admin or for the user's own
id; writes a fresh hash, optionally the require_password_change flag, and
the password_changed_at stamp. -/
def reset_password (kdf : Kdf) (s : AuthState) (uid new_password : String)
    (require_change : Bool) (now : String) (salt : List Nat) :
    AuthState × Bool × String :=
  match s.current_user with
  | none => (s, false, "Not authenticated")
  | some cu =>
    if cu.role != UserRole.ADMIN && cu.user_id != uid then
      (s, false, "Not authorized to reset this user's password")
    else if user_file_exists uid s.store then
      let f : UserRec → UserRec := fun r =>
        { r with password_hash := some (hash_password kdf new_password salt),
                 require_password_change :=
                   if require_change then some true
                   else r.require_password_change,
                 password_changed_at := some now }
      ({ s with store := update_user_file uid f s.store },
       true, "Password reset successfully")
    else (s, false, "User not found")

/-- The user_data dict passed to update_user: an Option field models the
key being absent from the dict. -/
structure UpdatePatch where
  user_id : Option String
  full_name : Option String
  email : Option String
  role : Option String
  deriving DecidableEq

/-- AuthManager.update_user: allowed for an admin or for the user's own
record; updates full_name and email from the patch (fields left out keep
their stored values), and the role only when the acting user is an admin —
a non-admin's role field is silently dropped. -/
def update_user (s : AuthState) (patch : UpdatePatch) : AuthState × Bool × String :=
  match s.current_user with
  | none => (s, false, "Not authenticated")
  | some cu =>
    if cu.role != UserRole.ADMIN && !(patch.user_id == some cu.user_id) then
      (s, false, "Not authorized to update this user")
    else
      match patch.user_id with
      | none => (s, false, "User ID is required")
      | some uid =>
        if uid == "" then (s, false, "User ID is required")
        else if user_file_exists uid s.store then
          let f : UserRec → UserRec := fun r =>
            { r with full_name := patch.full_name.getD r.full_name,
                     email := match patch.email with
                              | some e => some e
                              | none => r.email,
                     role := if cu.role == UserRole.ADMIN then
                               patch.role.getD r.role
                             else r.role }
          ({ s with store := update_user_file uid f s.store },
           true, "User updated successfully")
        else (s, false, "User not found")

/-- AuthManager.update_user_permissions: admin guard, then write the
permissions list into the target's file. -/
def update_user_permissions (s : AuthState) (uid : String)
    (permissions : List String) : AuthState × Bool × String :=
  match s.current_user with
  | none => (s, false, "Not authenticated")
  | some cu =>
    if cu.role != UserRole.ADMIN then
      (s, false, "Not authorized to modify permissions")
    else if user_file_exists uid s.store then
      let f : UserRec → UserRec := fun r => { r with permissions := some permissions }
      ({ s with store := update_user_file uid f s.store },
       true, "Permissions updated successfully")
    else (s, false, "User not found")

/-
Concrete fixtures used by counterexamples and witnesses. kdfLen is a
concrete instance of the abstract KDF; the quantified theorems hold for
every Kdf, the concrete results are evaluated at this one.
-/

/-- A small concrete key-derivation function for evaluating fixtures. -/
def kdfLen : Kdf := fun p _ => [p.length % 256]

/-- The bootstrap admin user file ("admin"/"admin123" under kdfLen). -/
def adminRecA : UserRec :=
  { user_id := "a1", username := "admin", full_name := "Administrator",
    role := "admin", email := some "admin@example.com",
    created_at := some "t0", last_login := none,
    password_hash := some (hash_password kdfLen "admin123" [1]),
    session_token := none, permissions := none,
    require_password_change := none, password_changed_at := none }

/-- A manager user file with no custom permissions stored. -/
def mgrRecA : UserRec :=
  { user_id := "m1", username := "mgr", full_name := "Manager",
    role := "manager", email := none,
    created_at := some "t0", last_login := none,
    password_hash := some (hash_password kdfLen "pass1234" [2]),
    session_token := none, permissions := none,
    require_password_change := none, password_changed_at := none }

/-- The manager file after update_user_permissions granted manage_users. -/
def mgrRecP : UserRec := { mgrRecA with permissions := some ["manage_users"] }

/-- A viewer user file. -/
def viewerRecA : UserRec :=
  { user_id := "v1", username := "vera", full_name := "Viewer",
    role := "viewer", email := none,
    created_at := some "t0", last_login := none,
    password_hash := some (hash_password kdfLen "viewpw" [3]),
    session_token := none, permissions := none,
    require_password_change := none, password_changed_at := none }

/-- State with the admin authenticated over a two-user store. -/
def s_admin : AuthState :=
  { current_user := some (UserObj.from_dict adminRecA),
    store := [adminRecA, mgrRecA],
    settings_user_id := none, settings_token := none }

/-- State with the manager authenticated after the permission grant. -/
def s_mgr : AuthState :=
  { current_user := some (UserObj.from_dict mgrRecP),
    store := [adminRecA, mgrRecP],
    settings_user_id := none, settings_token := none }

/-- State with the manager authenticated, no custom permissions stored. -/
def s_mgrSelf : AuthState :=
  { current_user := some (UserObj.from_dict mgrRecA),
    store := [adminRecA, mgrRecA],
    settings_user_id := none, settings_token := none }

/-- State with the viewer authenticated. -/
def s_viewer : AuthState :=
  { current_user := some (UserObj.from_dict viewerRecA),
    store := [adminRecA, viewerRecA],
    settings_user_id := none, settings_token := none }

/-- The role-default permission tables of has_permission, written out as a
standalone table (the non-admin arm of the source's if/elif chain). -/
def role_default_perm (role p : String) : Bool :=
  if role == UserRole.MANAGER then
    !((["manage_users", "delete_users"]).contains p)
  else if role == UserRole.CASHIER then
    (["create_sale", "view_sales", "create_payment"]).contains p
  else if role == UserRole.CLERK then
    (["view_inventory", "update_inventory"]).contains p
  else if role == UserRole.VIEWER then
    p.startsWith "view_"
  else false

/-- C3 (confirmed): verifying a password against the credential produced by
hashing it succeeds, for every key-derivation function, password and salt
(bytes below 256): verify(p, hash(p)) is true, since verify re-derives the
key from the stored salt with identical parameters and compares hex. -/
theorem verify_hash_roundtrip (kdf : Kdf) (p : String) (salt : List Nat)
    (h : ∀ b ∈ salt, b < 256) :
    verify_password kdf (hash_password kdf p salt) p = .ok true := by
  simp only [hash_password, verify_password, hexToBytes_bytesToHex salt h]
  simp

/-- C3 witness: the round trip evaluated at a concrete password and salt. -/
theorem verify_hash_roundtrip_witness :
    verify_password kdfLen (hash_password kdfLen "pw" [0, 255]) "pw" = .ok true :=
  verify_hash_roundtrip kdfLen "pw" [0, 255] (by decide)

/-- C9 (confirmed): with no current user, has_permission is false for every
permission string and every content of the store and the settings cache —
the check fails closed without consulting stored records. -/
theorem has_permission_no_user (store : List UserRec)
    (sid stok : Option String) (p : String) :
    has_permission ⟨none, store, sid, stok⟩ p = false := rfl

/-- C1 amended (corrected): has_permission is decided by the current user's
role alone — true iff the role is admin (unconditionally) or the permission
is in the fixed role-default table; the store, and hence the
custom_permissions list written by update_user_permissions, is never
consulted. -/
theorem has_permission_role_only (store : List UserRec)
    (sid stok : Option String) (u : UserObj) (p : String) :
    has_permission ⟨some u, store, sid, stok⟩ p
      = (u.role == UserRole.ADMIN || role_default_perm u.role p) := by
  simp only [has_permission, role_default_perm]
  cases hA : (u.role == UserRole.ADMIN) <;>
    cases hM : (u.role == UserRole.MANAGER) <;>
      cases hC : (u.role == UserRole.CASHIER) <;>
        cases hK : (u.role == UserRole.CLERK) <;>
          cases hV : (u.role == UserRole.VIEWER) <;>
            simp [hA, hM, hC, hK, hV]

/-- C1 counterexample: update_user_permissions stores manage_users as the
manager's custom permission, yet has_permission for the authenticated
manager still returns false on manage_users (which is also outside the
manager role-default set), contradicting the claimed role-default OR
custom_permissions reading. -/
theorem custom_permissions_ignored_cex :
    update_user_permissions s_admin "m1" ["manage_users"]
      = ({ s_admin with store := [adminRecA, mgrRecP] },
         true, "Permissions updated successfully")
    ∧ mgrRecP.permissions = some ["manage_users"]
    ∧ is_authenticated s_mgr = true
    ∧ role_default_perm (UserObj.from_dict mgrRecP).role "manage_users" = false
    ∧ has_permission s_mgr "manage_users" = false := by
  refine ⟨by decide, rfl, rfl, by decide, by decide⟩


/-- The user-by-username scan that login performs over the files (first
match in directory order). -/
def find_user (un : String) : List UserRec → Option UserRec
  | [] => none
  | x :: xs => if x.username == un then some x else find_user un xs

/-- The password check of login fails on a record without raising: no
stored hash, a falsy (empty) hash dict, or verification returning false. -/
def password_check_fails (kdf : Kdf) (r : UserRec) (pw : String) : Bool :=
  match r.password_hash with
  | none => true
  | some sh =>
    if storedHashTruthy sh then
      match verify_password kdf sh pw with
      | .ok false => true
      | _ => false
    else true

theorem login_loop_not_found (kdf : Kdf) (un pw tok now : String)
    (l : List UserRec) (h : find_user un l = none) :
    login_loop kdf un pw tok now l = .failure "User not found" := by
  induction l with
  | nil => rfl
  | cons x xs ih =>
    cases hx : (x.username == un) with
    | true => simp [find_user, hx] at h
    | false =>
      simp only [find_user, hx] at h
      simp [login_loop, hx, ih h]

theorem login_loop_invalid_password (kdf : Kdf) (un pw tok now : String)
    (l : List UserRec) (r : UserRec)
    (hf : find_user un l = some r)
    (hp : password_check_fails kdf r pw = true) :
    login_loop kdf un pw tok now l = .failure "Invalid password" := by
  induction l with
  | nil => simp [find_user] at hf
  | cons x xs ih =>
    cases hx : (x.username == un) with
    | false =>
      simp only [find_user, hx] at hf
      simp [login_loop, hx, ih hf]
    | true =>
      simp only [find_user, hx, if_true] at hf
      obtain rfl : x = r := by simpa using hf
      cases hph : x.password_hash with
      | none => simp [login_loop, hx, hph]
      | some sh =>
        cases hT : storedHashTruthy sh with
        | false => simp [login_loop, hx, hph, hT]
        | true =>
          simp only [password_check_fails, hph, hT, if_true] at hp
          cases hv : verify_password kdf sh pw with
          | error e => simp [hv] at hp
          | ok b =>
            cases b with
            | true => simp [hv] at hp
            | false => simp [login_loop, hx, hph, hT, hv]

theorem login_loop_raises (kdf : Kdf) (un pw tok now : String)
    (l : List UserRec) (r : UserRec) (sh : StoredHash) (e : PyError)
    (hf : find_user un l = some r)
    (hph : r.password_hash = some sh)
    (hT : storedHashTruthy sh = true)
    (hv : verify_password kdf sh pw = .error e) :
    login_loop kdf un pw tok now l
      = .failure ("Login error: " ++ pyErrorMsg e) := by
  induction l with
  | nil => simp [find_user] at hf
  | cons x xs ih =>
    cases hx : (x.username == un) with
    | false =>
      simp only [find_user, hx] at hf
      simp [login_loop, hx, ih hf]
    | true =>
      simp only [find_user, hx, if_true] at hf
      obtain rfl : x = r := by simpa using hf
      simp [login_loop, hx, hph, hT, hv]

theorem login_loop_preserves_others (kdf : Kdf) (un pw tok now : String)
    (l : List UserRec) (recs : List UserRec) (u : UserObj)
    (hs : login_loop kdf un pw tok now l = .success recs u)
    (r : UserRec) (hr : r ∈ l) (hn : r.username ≠ un) : r ∈ recs := by
  induction l generalizing recs with
  | nil => simp [login_loop] at hs
  | cons x xs ih =>
    cases hx : (x.username == un) with
    | true =>
      have hrx : r ≠ x := fun hxe => hn (hxe ▸ (beq_iff_eq.mp hx))
      have hrxs : r ∈ xs := by
        cases List.mem_cons.mp hr with
        | inl hh => exact absurd hh hrx
        | inr hh => exact hh
      cases hph : x.password_hash with
      | none => simp [login_loop, hx, hph] at hs
      | some sh =>
        cases hT : storedHashTruthy sh with
        | false => simp [login_loop, hx, hph, hT] at hs
        | true =>
          cases hv : verify_password kdf sh pw with
          | error e => simp [login_loop, hx, hph, hT, hv] at hs
          | ok b =>
            cases b with
            | false => simp [login_loop, hx, hph, hT, hv] at hs
            | true =>
              simp only [login_loop, hx, hph, hT, hv, if_true,
                LoginOutcome.success.injEq] at hs
              rw [← hs.1]
              exact List.mem_cons_of_mem _ hrxs
    | false =>
      simp only [login_loop, hx] at hs
      cases hlo : login_loop kdf un pw tok now xs with
      | failure m => simp [hlo] at hs
      | success recs2 u2 =>
        have hss : x :: recs2 = recs ∧ u2 = u := by
          simpa [hlo] using hs
        cases List.mem_cons.mp hr with
        | inl hh => rw [← hss.1]; exact hh ▸ List.mem_cons_self _ _
        | inr hh =>
          rw [← hss.1]
          exact List.mem_cons_of_mem _ (ih recs2 (hss.2 ▸ hlo) hh)

/-- A malformed credential: the salt entry is not valid hex. -/
def badHash : StoredHash := { salt := some ['z', 'z'], key := some ['0', '0'] }

/-- A user file carrying the malformed credential. -/
def badRecA : UserRec :=
  { user_id := "b1", username := "badbob", full_name := "Bad Bob",
    role := "viewer", email := none,
    created_at := some "t0", last_login := none,
    password_hash := some badHash,
    session_token := none, permissions := none,
    require_password_change := none, password_changed_at := none }

/-- State whose store holds the malformed-credential user. -/
def s_bad : AuthState :=
  { current_user := none, store := [badRecA],
    settings_user_id := none, settings_token := none }

/-- Alice: logged in, with a persisted session token T1. -/
def u1RecA : UserRec :=
  { user_id := "u1", username := "alice", full_name := "Alice",
    role := "manager", email := none,
    created_at := some "t0", last_login := some "t1",
    password_hash := some (hash_password kdfLen "alicepw" [3]),
    session_token := some "T1", permissions := none,
    require_password_change := none, password_changed_at := none }

/-- Bob: a second user who will log in. -/
def u2RecA : UserRec :=
  { user_id := "u2", username := "bob", full_name := "Bob",
    role := "cashier", email := none,
    created_at := some "t0", last_login := none,
    password_hash := some (hash_password kdfLen "bobpw" [4]),
    session_token := none, permissions := none,
    require_password_change := none, password_changed_at := none }

/-- State with alice authenticated and her token cached. -/
def s_two : AuthState :=
  { current_user := some (UserObj.from_dict u1RecA),
    store := [u1RecA, u2RecA],
    settings_user_id := some "u1", settings_token := some "T1" }

/-- C2 amended (corrected): login's two failure cases are distinguishable —
it returns "User not found" when no stored user has the username, and
"Invalid password" when the first user with that username exists but the
password check fails; the state is unchanged in both cases and the two
messages differ. -/
theorem login_failure_messages_distinct (kdf : Kdf) (s : AuthState)
    (un pw tok now : String) :
    (find_user un s.store = none →
      login kdf s un pw tok now = (s, false, "User not found"))
    ∧ (∀ r, find_user un s.store = some r →
        password_check_fails kdf r pw = true →
        login kdf s un pw tok now = (s, false, "Invalid password"))
    ∧ "User not found" ≠ "Invalid password" := by
  refine ⟨?_, ?_, by decide⟩
  · intro h
    unfold login
    rw [login_loop_not_found kdf un pw tok now s.store h]
  · intro r hf hp
    unfold login
    rw [login_loop_invalid_password kdf un pw tok now s.store r hf hp]

/-- C2 counterexample: at a concrete store, an unknown username and a wrong
password for an existing user produce different messages, so the two
failure cases are distinguishable in the returned result. -/
theorem login_leaks_user_existence_cex :
    (login kdfLen s_admin "nouser" "whatever" "T" "t").2.2 = "User not found"
    ∧ (login kdfLen s_admin "admin" "wrong" "T" "t").2.2 = "Invalid password"
    ∧ "User not found" ≠ "Invalid password" := ⟨rfl, rfl, by decide⟩

/-- C2 witness: the theorem applied at the concrete unknown-username case. -/
theorem login_failure_messages_distinct_witness :
    login kdfLen s_admin "nouser" "whatever" "T" "t"
      = (s_admin, false, "User not found") :=
  (login_failure_messages_distinct kdfLen s_admin "nouser" "whatever" "T" "t").1 rfl

/-- C7 amended (corrected): on a malformed credential (salt entry missing,
salt not valid hex, or key entry missing) _verify_password raises a Python
exception instead of returning false; login's try/except catches it and
returns the failure pair whose message is "Login error: " followed by the
exception text — authentication is denied, but not by verify returning
false, and the message carries the exception detail. -/
theorem verify_malformed_raises (kdf : Kdf) (sh : StoredHash) (pw : String)
    (s : AuthState) (un tok now : String) (r : UserRec)
    (hm : sh.salt = none ∨ (∃ hx, sh.salt = some hx ∧ hexToBytes hx = none)
          ∨ sh.key = none)
    (hf : find_user un s.store = some r)
    (hph : r.password_hash = some sh)
    (hT : storedHashTruthy sh = true) :
    ∃ e, verify_password kdf sh pw = .error e
      ∧ login kdf s un pw tok now
          = (s, false, "Login error: " ++ pyErrorMsg e) := by
  have herr : ∃ e, verify_password kdf sh pw = .error e := by
    cases hsalt : sh.salt with
    | none => exact ⟨.keyError "salt", by simp [verify_password, hsalt]⟩
    | some hx =>
      cases hhx : hexToBytes hx with
      | none => exact ⟨.valueError, by simp [verify_password, hsalt, hhx]⟩
      | some bs =>
        have hk : sh.key = none := by
          rcases hm with h | ⟨hx2, hsx2, hbad⟩ | h
          · rw [hsalt] at h; exact absurd h (by simp)
          · rw [hsalt] at hsx2
            obtain rfl : hx = hx2 := by simpa using hsx2
            rw [hhx] at hbad; exact absurd hbad (by simp)
          · exact h
        exact ⟨.keyError "key", by simp [verify_password, hsalt, hhx, hk]⟩
  obtain ⟨e, he⟩ := herr
  refine ⟨e, he, ?_⟩
  unfold login
  rw [login_loop_raises kdf un pw tok now s.store r sh e hf hph hT he]

/-- C7 counterexample: a credential whose salt is not hex makes
_verify_password raise ValueError — it does not return false. -/
theorem verify_malformed_not_false_cex :
    verify_password kdfLen badHash "pw" = .error .valueError
    ∧ verify_password kdfLen badHash "pw" ≠ .ok false := by
  refine ⟨rfl, ?_⟩
  intro h
  have h2 : (Except.error PyError.valueError : Except PyError Bool)
      = Except.ok false :=
    (rfl : verify_password kdfLen badHash "pw"
        = Except.error PyError.valueError).symm.trans h
  exact absurd h2 (by simp)

/-- C7 witness: the theorem applied at the concrete malformed credential. -/
theorem verify_malformed_raises_witness :
    ∃ e, verify_password kdfLen badHash "pw" = .error e
      ∧ login kdfLen s_bad "badbob" "pw" "T" "t"
          = (s_bad, false, "Login error: " ++ pyErrorMsg e) :=
  verify_malformed_raises kdfLen badHash "pw" s_bad "badbob" "T" "t" badRecA
    (Or.inr (Or.inl ⟨['z', 'z'], rfl, rfl⟩)) rfl rfl rfl

/-- C10 (confirmed): a successful login by another username rewrites only
the matched user's file; any record whose username differs — in particular
the previously authenticated user's record with its stored session_token —
is still in the store unchanged, so its token still passes the resume
comparison. -/
theorem login_preserves_other_user_record (kdf : Kdf) (s : AuthState)
    (un pw tok now : String) (r : UserRec)
    (hr : r ∈ s.store) (hn : r.username ≠ un)
    (hs : (login kdf s un pw tok now).2.1 = true) :
    r ∈ (login kdf s un pw tok now).1.store
    ∧ ∀ t, r.session_token = some t → t ≠ "" →
        token_matches r.session_token t = true := by
  constructor
  · unfold login at hs ⊢
    cases hlo : login_loop kdf un pw tok now s.store with
    | failure m => simp [hlo] at hs
    | success recs u =>
      simp only [hlo]
      exact login_loop_preserves_others kdf un pw tok now s.store recs u hlo r hr hn
  · intro t ht hne
    simp [token_matches, ht, hne]

/-- C10 witness: bob's login leaves alice's record (with token T1) intact. -/
theorem login_preserves_other_user_record_witness :
    u1RecA ∈ (login kdfLen s_two "bob" "bobpw" "T2" "t9").1.store
    ∧ ∀ t, u1RecA.session_token = some t → t ≠ "" →
        token_matches u1RecA.session_token t = true :=
  login_preserves_other_user_record kdfLen s_two "bob" "bobpw" "T2" "t9" u1RecA
    (by decide) (by decide) (by decide)

/-- C4 amended (corrected): deleting one's own account always fails with
the store unchanged, but the error kind depends on the role: the admin
guard fires before the self-delete guard, so CannotDeleteSelf ("Cannot
delete your own account") is returned only when the acting user is an
admin; every other role gets the NotAuthorized message. -/
theorem self_delete_always_fails (s : AuthState) (cu : UserObj)
    (h : s.current_user = some cu) :
    delete_user s cu.user_id
      = (s, false,
         if cu.role == UserRole.ADMIN then "Cannot delete your own account"
         else "Not authorized to delete users") := by
  unfold delete_user
  rw [h]
  cases hA : (cu.role == UserRole.ADMIN) with
  | false => simp [hA, beq_eq_false_iff_ne.mp hA]
  | true => simp [hA, beq_iff_eq.mp hA]

/-- C4 counterexample: the authenticated viewer deleting their own account
gets the NotAuthorized message, not CannotDeleteSelf. -/
theorem self_delete_nonadmin_message_cex :
    delete_user s_viewer "v1"
      = (s_viewer, false, "Not authorized to delete users")
    ∧ "Not authorized to delete users" ≠ "Cannot delete your own account" :=
  ⟨rfl, by decide⟩

/-- C4 witness: the admin's self-delete evaluated concretely. -/
theorem self_delete_always_fails_witness :
    delete_user s_admin (UserObj.from_dict adminRecA).user_id
      = (s_admin, false,
         if (UserObj.from_dict adminRecA).role == UserRole.ADMIN
         then "Cannot delete your own account"
         else "Not authorized to delete users") :=
  self_delete_always_fails s_admin (UserObj.from_dict adminRecA) rfl

theorem any_write_user_file (p : UserRec → Bool) (r : UserRec)
    (l : List UserRec) (hp : p r = true) :
    (write_user_file r l).any p = true := by
  induction l with
  | nil => simp [write_user_file, hp]
  | cons x xs ih =>
    unfold write_user_file
    cases hx : (x.user_id == r.user_id) with
    | true => simp [hp]
    | false => simp [ih]

theorem username_exists_write (un : String) (r : UserRec) (l : List UserRec)
    (hr : r.username = un) :
    username_exists un (write_user_file r l) = true := by
  unfold username_exists
  exact any_write_user_file _ r l (by simp [hr])

theorem mem_map_username_write (r : UserRec) (l : List UserRec) (y : String)
    (h : y ∈ (write_user_file r l).map UserRec.username) :
    y ∈ l.map UserRec.username ∨ y = r.username := by
  induction l with
  | nil =>
    simp [write_user_file] at h
    exact Or.inr h
  | cons x xs ih =>
    unfold write_user_file at h
    cases hx : (x.user_id == r.user_id) with
    | true =>
      rw [hx] at h
      simp only [if_true, List.map_cons, List.mem_cons] at h
      rcases h with h | h
      · exact Or.inr h
      · exact Or.inl (by simp [List.mem_cons]; exact Or.inr (by simpa using h))
    | false =>
      rw [hx] at h
      simp only [if_false, Bool.false_eq_true, List.map_cons,
        List.mem_cons] at h
      rcases h with h | h
      · exact Or.inl (by simp [h])
      · rcases ih h with h2 | h2
        · exact Or.inl (by simp [List.mem_cons]; exact Or.inr (by simpa using h2))
        · exact Or.inr h2

theorem notmem_of_username_exists_false (un : String) (l : List UserRec)
    (h : username_exists un l = false) :
    un ∉ l.map UserRec.username := by
  intro hmem
  obtain ⟨x, hx, hxy⟩ := List.mem_map.mp hmem
  have htrue : l.any (fun r => r.username == un) = true :=
    List.any_eq_true.mpr ⟨x, hx, by simp [hxy]⟩
  unfold username_exists at h
  rw [h] at htrue
  exact Bool.false_ne_true htrue

theorem nodup_username_write (r : UserRec) (l : List UserRec)
    (hEx : username_exists r.username l = false)
    (hnd : (l.map UserRec.username).Nodup) :
    ((write_user_file r l).map UserRec.username).Nodup := by
  induction l with
  | nil => simp [write_user_file]
  | cons x xs ih =>
    have hEx2 : (x.username == r.username) = false
        ∧ username_exists r.username xs = false := by
      have hcons : ((x.username == r.username)
          || username_exists r.username xs) = false := hEx
      exact ⟨Bool.or_eq_false_iff.mp hcons |>.1,
             Bool.or_eq_false_iff.mp hcons |>.2⟩
    have hnx : x.username ∉ xs.map UserRec.username
        ∧ (xs.map UserRec.username).Nodup := by
      simpa [List.nodup_cons] using hnd
    unfold write_user_file
    cases hx : (x.user_id == r.user_id) with
    | true =>
      simp only [if_true, List.map_cons]
      refine List.nodup_cons.mpr ⟨?_, hnx.2⟩
      exact notmem_of_username_exists_false _ _ hEx2.2
    | false =>
      simp only [if_false, Bool.false_eq_true, List.map_cons]
      refine List.nodup_cons.mpr ⟨?_, ih hEx2.2 hnx.2⟩
      intro hmem
      rcases mem_map_username_write r xs x.username hmem with h | h
      · exact hnx.1 h
      · exact absurd h (by simpa using hEx2.1)

/-- C5 (confirmed): when create_user succeeds for a username, an
immediately subsequent create_user with the exact same (case-sensitive)
username fails with "Username already exists" and returns the state
unchanged — no record is added; and a successful create preserves the
no-duplicate-usernames invariant of the store, so each reachable store
keeps exactly one record per username. -/
theorem create_duplicate_username_guard (kdf kdf2 : Kdf) (s : AuthState)
    (un pw fn rl : String) (em : Option String) (id1 now1 : String)
    (salt1 : List Nat) (pw2 fn2 rl2 : String) (em2 : Option String)
    (id2 now2 : String) (salt2 : List Nat)
    (hs : (create_user kdf s un pw fn rl em id1 now1 salt1).2.1 = true) :
    create_user kdf2 (create_user kdf s un pw fn rl em id1 now1 salt1).1
        un pw2 fn2 rl2 em2 id2 now2 salt2
      = ((create_user kdf s un pw fn rl em id1 now1 salt1).1, false,
         "Username already exists")
    ∧ ((s.store.map UserRec.username).Nodup →
       (((create_user kdf s un pw fn rl em id1 now1 salt1).1).store.map
           UserRec.username).Nodup) := by
  cases hcu : s.current_user with
  | none =>
    unfold create_user at hs
    rw [hcu] at hs
    simp at hs
  | some cu =>
    cases hA : (cu.role == UserRole.ADMIN) with
    | false =>
      unfold create_user at hs
      rw [hcu] at hs
      simp [hA, beq_eq_false_iff_ne.mp hA] at hs
    | true =>
      cases hEx : username_exists un s.store with
      | true =>
        unfold create_user at hs
        rw [hcu] at hs
        simp [hA, beq_iff_eq.mp hA, hEx] at hs
      | false =>
        have hstep : create_user kdf s un pw fn rl em id1 now1 salt1
            = (AuthState.mk (some cu)
                 (write_user_file
                   (new_user_rec kdf un pw fn rl em id1 now1 salt1) s.store)
                 s.settings_user_id s.settings_token,
               true, "User created successfully") := by
          unfold create_user
          rw [hcu]
          simp [hA, beq_iff_eq.mp hA, hEx, hcu]
        constructor
        · rw [hstep]
          unfold create_user
          have hex2 : username_exists un (write_user_file
              (new_user_rec kdf un pw fn rl em id1 now1 salt1) s.store)
              = true :=
            username_exists_write un _ s.store rfl
          simp [hcu, hA, beq_iff_eq.mp hA, hex2]
        · intro hnd
          rw [hstep]
          show ((write_user_file
              (new_user_rec kdf un pw fn rl em id1 now1 salt1)
              s.store).map UserRec.username).Nodup
          exact nodup_username_write _ _ hEx hnd

/-- C5 witness: the admin creates "newuser"; a second create with the same
username then fails with the duplicate error and adds nothing. -/
theorem create_duplicate_username_guard_witness :
    create_user kdfLen
        (create_user kdfLen s_admin "newuser" "npw" "New User" "clerk" none
          "n1" "t5" [6]).1
        "newuser" "npw2" "Second" "viewer" none "n2" "t6" [7]
      = ((create_user kdfLen s_admin "newuser" "npw" "New User" "clerk" none
          "n1" "t5" [6]).1, false, "Username already exists")
    ∧ ((s_admin.store.map UserRec.username).Nodup →
       (((create_user kdfLen s_admin "newuser" "npw" "New User" "clerk" none
           "n1" "t5" [6]).1).store.map UserRec.username).Nodup) :=
  create_duplicate_username_guard kdfLen kdfLen s_admin "newuser" "npw"
    "New User" "clerk" none "n1" "t5" [6] "npw2" "Second" "viewer" none
    "n2" "t6" [7] (by decide)

theorem map_role_update_user_file (uid : String) (f : UserRec → UserRec)
    (l : List UserRec) (hf : ∀ r, (f r).role = r.role) :
    (update_user_file uid f l).map UserRec.role = l.map UserRec.role := by
  induction l with
  | nil => rfl
  | cons x xs ih =>
    unfold update_user_file
    cases hx : (x.user_id == uid) with
    | true => simp [hf x]
    | false => simp [ih]

/-- C6 amended (corrected): with a non-admin acting user, create_user,
delete_user, reset_password on another user's id and
update_user_permissions each return their NotAuthorized message with the
state untouched (the guard runs before any write); update_user on another
user's record is likewise rejected, while update_user on the acting user's
own record is accepted — its role field is silently ignored, so no
non-admin call ever changes any stored role, but the attempted self role
edit does not produce a NotAuthorized failure. -/
theorem nonadmin_guards (s : AuthState) (cu : UserObj)
    (hcu : s.current_user = some cu) (hrole : cu.role ≠ UserRole.ADMIN) :
    (∀ (kdf : Kdf) un pw fn rl em nid now salt,
      create_user kdf s un pw fn rl em nid now salt
        = (s, false, "Not authorized to create users"))
    ∧ (∀ uid, delete_user s uid
        = (s, false, "Not authorized to delete users"))
    ∧ (∀ (kdf : Kdf) uid npw rc now salt, uid ≠ cu.user_id →
        reset_password kdf s uid npw rc now salt
          = (s, false, "Not authorized to reset this user's password"))
    ∧ (∀ uid perms, update_user_permissions s uid perms
        = (s, false, "Not authorized to modify permissions"))
    ∧ (∀ patch, patch.user_id ≠ some cu.user_id →
        update_user s patch
          = (s, false, "Not authorized to update this user"))
    ∧ (∀ patch, ((update_user s patch).1.store.map UserRec.role)
        = s.store.map UserRec.role) := by
  have hA : (cu.role == UserRole.ADMIN) = false := beq_eq_false_iff_ne.mpr hrole
  refine ⟨?_, ?_, ?_, ?_, ?_, ?_⟩
  · intro kdf un pw fn rl em nid now salt
    unfold create_user
    rw [hcu]
    simp [hA, hrole]
  · intro uid
    unfold delete_user
    rw [hcu]
    simp [hA, hrole]
  · intro kdf uid npw rc now salt hself
    have hB : (cu.user_id == uid) = false :=
      beq_eq_false_iff_ne.mpr (fun he => hself he.symm)
    unfold reset_password
    rw [hcu]
    simp [hA, hrole, hB, beq_eq_false_iff_ne.mp hB]
  · intro uid perms
    unfold update_user_permissions
    rw [hcu]
    simp [hA, hrole]
  · intro patch hne
    have hB : (patch.user_id == some cu.user_id) = false :=
      beq_eq_false_iff_ne.mpr hne
    unfold update_user
    rw [hcu]
    simp [hA, hrole, hB, hne]
  · intro patch
    unfold update_user
    rw [hcu]
    split
    · rfl
    · next u heq =>
      obtain rfl : u = cu := by
        injection heq with h2
        exact h2.symm
      split
      · rfl
      · split
        · rfl
        · split
          · rfl
          · split
            · exact map_role_update_user_file _ _ s.store (fun r => by simp [hA])
            · rfl

/-- C6 counterexample: the authenticated manager calls update_user on their
own record with a role change to admin; the call is accepted ("User updated
successfully", not a NotAuthorized failure), and the store is unchanged —
the role field was silently dropped. -/
theorem nonadmin_role_edit_accepted_cex :
    update_user s_mgrSelf
        { user_id := some "m1", full_name := none, email := none,
          role := some "admin" }
      = (s_mgrSelf, true, "User updated successfully")
    ∧ (UserObj.from_dict mgrRecA).role ≠ UserRole.ADMIN := by
  refine ⟨by decide, by decide⟩

/-- C6 witness: the manager's delete_user attempt evaluated concretely. -/
theorem nonadmin_guards_witness :
    delete_user s_mgrSelf "a1"
      = (s_mgrSelf, false, "Not authorized to delete users") :=
  (nonadmin_guards s_mgrSelf (UserObj.from_dict mgrRecA) rfl
    (by decide)).2.1 "a1"

/-- Reading data/users/{uid}.json: the record whose file name is uid. -/
def find_user_by_id (uid : String) : List UserRec → Option UserRec
  | [] => none
  | x :: xs => if x.user_id == uid then some x else find_user_by_id uid xs

theorem find_remove_session_token (uid : String) (l : List UserRec)
    (r : UserRec)
    (hf : find_user_by_id uid (remove_session_token uid l) = some r) :
    r.session_token = none := by
  induction l with
  | nil => simp [remove_session_token, find_user_by_id] at hf
  | cons x xs ih =>
    unfold remove_session_token at hf
    cases hx : (x.user_id == uid) with
    | true =>
      rw [hx] at hf
      simp only [if_true, find_user_by_id] at hf
      rw [hx] at hf
      simp only [if_true] at hf
      obtain rfl : { x with session_token := none } = r := by simpa using hf
      rfl
    | false =>
      rw [hx] at hf
      simp only [if_false, Bool.false_eq_true, find_user_by_id, hx] at hf
      exact ih hf

/-- C8 amended (corrected): logging out with a current user clears the
settings cache, removes the session_token from that user's file and clears
current_user, returning success; a second logout (no current user) changes
nothing and raises nothing, but returns the failure form of the result
pair, (False, "No user logged in"), rather than a non-error result. -/
theorem logout_clears_session (s : AuthState) (cu : UserObj)
    (h : s.current_user = some cu) :
    logout s = (AuthState.mk none
        (remove_session_token cu.user_id s.store) none none,
      true, "Logout successful")
    ∧ (∀ r, find_user_by_id cu.user_id
          (remove_session_token cu.user_id s.store) = some r →
        r.session_token = none)
    ∧ logout (logout s).1 = ((logout s).1, false, "No user logged in") := by
  have h1 : logout s = (AuthState.mk none
      (remove_session_token cu.user_id s.store) none none,
    true, "Logout successful") := by
    unfold logout
    rw [h]
  refine ⟨h1, fun r hf => find_remove_session_token _ _ r hf, ?_⟩
  rw [h1]
  rfl

/-- C8 counterexample: after a concrete logout, logging out again returns
success = false — the failure form that every error path of this API uses —
with the message "No user logged in", so the second logout is reported as
an error result even though the state is unchanged. -/
theorem logout_twice_returns_failure_cex :
    (logout s_admin).2.1 = true
    ∧ logout (logout s_admin).1
        = ((logout s_admin).1, false, "No user logged in")
    ∧ (logout (logout s_admin).1).2.1 = false := ⟨rfl, rfl, rfl⟩

/-- C8 witness: the theorem applied to alice's logged-in state. -/
theorem logout_clears_session_witness :
    logout s_two = (AuthState.mk none
        (remove_session_token "u1" s_two.store) none none,
      true, "Logout successful")
    ∧ (∀ r, find_user_by_id "u1"
          (remove_session_token "u1" s_two.store) = some r →
        r.session_token = none)
    ∧ logout (logout s_two).1 = ((logout s_two).1, false, "No user logged in") :=
  logout_clears_session s_two (UserObj.from_dict u1RecA) rfl
